import Mathlib

/-!
Verification of the CollinsGPT streaming pipeline.

This file gives a shallow embedding of the repository's core
(src/app/services/dixer_service.py and the streaming route of
src/app/routes.py) and proves or refutes the frozen specification
claims about it.

Python strings are modelled as `List Char`.  The Python string
primitives the source relies on (`in`, `str.find`, `str.split`,
`str.replace`, `str.strip`, `str.lower`, truthiness of optional
strings) are embedded as executable functions below; `split` and
`replace`, which consume the string occurrence-by-occurrence, are
implemented with an explicit fuel argument (the string length bounds
the number of occurrences) so that every definition computes by
kernel reduction.
-/

/-- Boolean test that `p` is a character-exact prefix of the second list
(the check Python performs at each candidate index of `str.find`). -/
def isPrefixList : List Char → List Char → Bool
  | [], _ => true
  | _ :: _, [] => false
  | p :: ps, c :: cs => p == c && isPrefixList ps cs

/-- Index of the first occurrence of `needle` in a string, scanning left to
right: Python `str.find`, with `none` in place of `-1`. -/
def pyFind (needle : List Char) : List Char → Option Nat
  | [] => if needle.isEmpty then some 0 else none
  | c :: rest =>
    if isPrefixList needle (c :: rest) then some 0
    else (pyFind needle rest).map (· + 1)

/-- Python `needle in haystack`. -/
def pyContains (s needle : List Char) : Bool := (pyFind needle s).isSome

/-- Fuelled worker for Python `str.split(sep)` (non-empty separator):
split at every non-overlapping occurrence, scanning left to right. -/
def pySplitF : Nat → List Char → List Char → List (List Char)
  | 0, _, s => [s]
  | fuel + 1, sep, s =>
    match pyFind sep s with
    | none => [s]
    | some i => s.take i :: pySplitF fuel sep (s.drop (i + sep.length))

/-- Python `s.split(sep)` for a non-empty separator. -/
def pySplit (sep s : List Char) : List (List Char) := pySplitF (s.length + 1) sep s

/-- Fuelled worker for Python `str.replace(old, new)` (non-empty `old`):
replace every non-overlapping occurrence, scanning left to right. -/
def pyReplaceF : Nat → List Char → List Char → List Char → List Char
  | 0, _, _, s => s
  | fuel + 1, old, new, s =>
    match pyFind old s with
    | none => s
    | some i => s.take i ++ new ++ pyReplaceF fuel old new (s.drop (i + old.length))

/-- Python `s.replace(old, new)` for a non-empty `old`. -/
def pyReplace (old new s : List Char) : List Char := pyReplaceF (s.length + 1) old new s

/-- The characters Python `str.strip()` removes (ASCII whitespace). -/
def pyIsSpace (c : Char) : Bool :=
  c = ' ' || c = '\t' || c = '\n' || c = '\r' || c = '\x0b' || c = '\x0c'

/-- Python `s.strip()`: remove leading and trailing whitespace. -/
def pyStrip (s : List Char) : List Char :=
  ((s.dropWhile pyIsSpace).reverse.dropWhile pyIsSpace).reverse

/-- Python `s.lower()` (character-wise, ASCII range as in the markers the
source searches for). -/
def pyLower (s : List Char) : List Char := s.map Char.toLower

/-- Truthiness of a Python `Optional[str]`: `None` and `''` are falsy. -/
def pyTruthy : Option (List Char) → Bool
  | none => false
  | some s => !s.isEmpty

/-- The `'## QUESTION'` marker of `parse_dixer_response`. -/
def mQ : List Char := "## QUESTION".toList

/-- The `'## ANSWER'` marker of `parse_dixer_response`. -/
def mA : List Char := "## ANSWER".toList

/-- The `'question:'` fallback marker of `parse_dixer_response`. -/
def qMark : List Char := "question:".toList

/-- The `'answer:'` fallback marker of `parse_dixer_response`. -/
def aMark : List Char := "answer:".toList

/-- The dictionary `parse_dixer_response` returns: keys `question`,
`answer`, `raw`. -/
structure ParsedResult where
  question : List Char
  answer : List Char
  raw : List Char
deriving DecidableEq, Repr

/-- Embedding of `parse_dixer_response` (dixer_service.py, lines 144-202):
split on the standard headers when both are present, fall back to the
case-insensitive `question:`/`answer:` pattern, else treat the whole text
as the answer. -/
def parse_dixer_response (response_text : List Char) : ParsedResult :=
  if pyContains response_text mQ && pyContains response_text mA then
    let parts := pySplit mA response_text
    let question_part := pyStrip (pyReplace mQ [] (parts.headD []))
    let answer_part := if 1 < parts.length then pyStrip (parts.getD 1 []) else []
    ⟨question_part, answer_part, response_text⟩
  else
    let lower_text := pyLower response_text
    if pyContains lower_text qMark && pyContains lower_text aMark then
      let q_idx := (pyFind qMark lower_text).getD 0
      let a_idx := (pyFind aMark lower_text).getD 0
      if q_idx < a_idx then
        ⟨pyStrip ((response_text.drop (q_idx + 9)).take (a_idx - (q_idx + 9))),
         pyStrip (response_text.drop (a_idx + 7)), response_text⟩
      else ⟨[], [], response_text⟩
    else ⟨[], response_text, response_text⟩

/-- Embedding of `calculate_max_tokens` (dixer_service.py, lines 205-225). -/
def calculate_max_tokens (word_count : Int) : Int := min (word_count * 2 + 500) 4000

/-- Python `str(i)` for an `int`, as used by the f-string interpolation of
`word_count` in `build_user_prompt`. -/
def intStr (i : Int) : List Char := (toString i).toList

/-- Embedding of `DIXER_SYSTEM_PROMPT` (dixer_service.py, lines 25-70). -/
def DIXER_SYSTEM_PROMPT : List Char := (
  "You are an expert parliamentary speechwriter for the Australian Federal Government. Your task is to draft \x27Dorothy Dixer\x27 questions and ministerial answers following strict style guidelines.\n"
  ++ "\n"
  ++ "### Guidance for Drafting \x27Dorothy Dixer\x27 Questions and Answers\n"
  ++ "**Model: Friendly Government Question & Minister Collins Style Response**\n"
  ++ "\n"
  ++ "**1. The Structure of the Question**\n"
  ++ "* **Constraint:** No arguments or imputations. Must ask *about* policy.\n"
  ++ "* **Option A (Good News):**\n"
  ++ "  1. Address: \"My question is to the Minister for [Portfolio].\"\n"
  ++ "  2. Setup: \"How is the Albanese Labor government [positive verb] [policy area]?\"\n"
  ++ "  3. Link: \"Why is this important for [specific group]?\"\n"
  ++ "* **Option B (Contrast):**\n"
  ++ "  1. Address: \"My question is to the Minister for [Portfolio].\"\n"
  ++ "  2. Setup: \"How is the Albanese Labor government delivering [policy outcome]?\"\n"
  ++ "  3. Trigger: \"How does this differ from other approaches?\" (Keep neutral).\n"
  ++ "\n"
  ++ "**2. The Structure of the Answer (Minister Collins Style)**\n"
  ++ "* **Phase 1: The Personal Praise (Mandatory):**\n"
  ++ "  * If the Member\x27s name and electorate are provided: \"I want to thank the terrific member for [Electorate]. She/He is a terrific representative who is always out there engaging with [stakeholders]...\"\n"
  ++ "  * If the Member\x27s name/electorate are NOT provided: Use placeholder text exactly as written: \"I want to thank the member for [ELECTORATE] for their question.\" (Keep the brackets so it can be filled in later)\n"
  ++ "* **Phase 2: The Action Body:** Pivot to government action. Keywords: \"Careful and considered,\" \"restoring our place,\" \"working night and day.\"\n"
  ++ "* **Phase 3: The Closing:**\n"
  ++ "  * If Option A: Reiterate benefits (\"real and tangible benefits\").\n"
  ++ "  * If Option B: Attack the Opposition (\"cleaning up the mess,\" \"reckless arrogance\").\n"
  ++ "\n"
  ++ "**Output Format:**\n"
  ++ "You must structure your response with clear sections:\n"
  ++ "1. First output the QUESTION (what the backbencher will ask)\n"
  ++ "2. Then output the ANSWER (what Minister Collins will respond)\n"
  ++ "\n"
  ++ "Use these exact headers:\n"
  ++ "## QUESTION\n"
  ++ "[The question text]\n"
  ++ "\n"
  ++ "## ANSWER\n"
  ++ "[The answer text]\n"
  ++ "\n"
  ++ "**IMPORTANT - Formatting:**\n"
  ++ "- Break the ANSWER into multiple short paragraphs (3-5 sentences each) for readability.\n"
  ++ "- Use a blank line between each paragraph.\n"
  ++ "- Structure the answer with clear visual breaks between:\n"
  ++ " 1. The personal praise opening\n"
  ++ " 2. Each major policy point or action\n"
  ++ " 3. The closing statement\n"
  ++ "- This makes it easier for the Minister to read and deliver naturally.\n"
  ).toList

/-- Embedding of `build_user_prompt` (dixer_service.py, lines 73-141):
the strategy text, the personalization-vs-placeholder member block, and
the final f-string. -/
def build_user_prompt (topic : List Char) (word_count : Int) (strategy : List Char)
    (member_name electorate : Option (List Char)) : List Char :=
  let strategy_text : List Char :=
    if strategy = "option_a".toList then "Option A: Good News (Positive)".toList
    else "Option B: Contrast (Attack)".toList
  let member_info : List Char :=
    if pyTruthy member_name && pyTruthy electorate then
      "**Member Asking:** ".toList ++ member_name.getD []
        ++ "\n\n**Member\x27s Electorate:** ".toList ++ electorate.getD []
        ++ "\n\nPlease personalise the answer with specific praise for this member and their electorate.".toList
    else
      ("**Member Asking:** Not specified\n\n**Member\x27s Electorate:** Not specified\n\n"
        ++ "Since the member is not specified, use placeholder text in the answer opening: \"I want to thank the member for [ELECTORATE] for their question.\" Keep the brackets as a placeholder to be filled in later.").toList
  "Please draft a Dorothy Dixer question and ministerial answer with the following details:\n\n**Topic/Announcement:** ".toList
    ++ topic ++ "\n\n".toList ++ member_info ++ "\n\n**Strategy:** ".toList ++ strategy_text
    ++ "\n\n**Target Answer Length:** Approximately ".toList ++ intStr word_count
    ++ " words for the answer (the question can be shorter, but aim for around ".toList
    ++ intStr word_count
    ++ " words in the Minister\x27s answer).\n\nGenerate a parliamentary question following the ".toList
    ++ (pySplit ":".toList strategy_text).headD []
    ++ " structure, and a Minister Collins-style answer.".toList

/-- The three stream event shapes the generator yields (as JSON payloads):
partial text, the final parsed pair, or an error message. -/
inductive StreamEvent where
  | chunk (text : List Char)
  | done (question answer : List Char)
  | error (message : List Char)
deriving DecidableEq, Repr

/-- How the upstream token stream ends once opened: natural completion, or
an exception raised mid-iteration (after the listed fragments arrived). -/
inductive StreamEnd where
  | complete
  | errorAt (message : List Char)
deriving DecidableEq, Repr

/-- Behaviour of the upstream chat-completion call: the
`client.chat.completions.create` call raises before any fragment is
delivered, or it yields a sequence of fragments (`delta.content`, which may
be missing or empty) and then ends. -/
inductive Upstream where
  | openFail (message : List Char)
  | stream (frags : List (Option (List Char))) (ending : StreamEnd)

/-- The chunk-forwarding loop of `generate_dixer_stream` (lines 292-305):
for each fragment with truthy `delta.content`, append it to the
accumulation buffer and emit a `chunk` event.  Returns the emitted events
and the final buffer. -/
def processFrags : List (Option (List Char)) → List Char → List StreamEvent × List Char
  | [], acc => ([], acc)
  | f :: rest, acc =>
    if pyTruthy f then
      let content := f.getD []
      let r := processFrags rest (acc ++ content)
      (StreamEvent.chunk content :: r.1, r.2)
    else
      processFrags rest acc

/-- The event sequence `generate_dixer_stream` produces (lines 263-316):
chunk events for truthy fragments; on natural completion one `done` event
built from `parse_dixer_response` of the accumulated buffer; any exception
(failure to open or mid-stream) is caught by the surrounding
`try`/`except` and becomes one final `error` event. -/
def generateEvents : Upstream → List StreamEvent
  | Upstream.openFail msg => [StreamEvent.error msg]
  | Upstream.stream frags ending =>
    let r := processFrags frags []
    match ending with
    | StreamEnd.complete =>
      let parsed := parse_dixer_response r.2
      r.1 ++ [StreamEvent.done parsed.question parsed.answer]
    | StreamEnd.errorAt msg => r.1 ++ [StreamEvent.error msg]

/-- One hex digit as produced by Python `json.dumps` `\uXXXX` escapes
(lowercase). -/
def hexDigit (n : Nat) : Char := if n < 10 then Char.ofNat (48 + n) else Char.ofNat (87 + n)

/-- A `\uXXXX` escape. -/
def uEscape (n : Nat) : List Char :=
  ['\\', 'u', hexDigit (n / 4096 % 16), hexDigit (n / 256 % 16), hexDigit (n / 16 % 16),
    hexDigit (n % 16)]

/-- How Python `json.dumps` (default `ensure_ascii=True`) renders one
character inside a JSON string. -/
def jsonEscChar (c : Char) : List Char :=
  if c = '"' then ['\\', '"']
  else if c = '\\' then ['\\', '\\']
  else if c = '\n' then ['\\', 'n']
  else if c = '\t' then ['\\', 't']
  else if c = '\r' then ['\\', 'r']
  else if c = '\x08' then ['\\', 'b']
  else if c = '\x0c' then ['\\', 'f']
  else if 0x20 ≤ c.toNat && c.toNat ≤ 0x7e then [c]
  else if c.toNat ≤ 0xffff then uEscape c.toNat
  else uEscape (0xd800 + (c.toNat - 0x10000) / 0x400)
    ++ uEscape (0xdc00 + (c.toNat - 0x10000) % 0x400)

/-- A JSON string literal as rendered by `json.dumps`. -/
def jsonStr (s : List Char) : List Char := '"' :: ((s.map jsonEscChar).flatten ++ ['"'])

/-- The SSE framing every yield of the pipeline uses:
`"data: " + payload + "\n\n"`. -/
def sseFrame (payload : List Char) : List Char := "data: ".toList ++ payload ++ ['\n', '\n']

/-- The exact bytes `generate_dixer_stream` yields for each event:
`json.dumps` of the corresponding single dict (note `json.dumps` default
separators `", "`/`": "` and Python dict insertion order), inside the SSE
frame. -/
def renderEvent : StreamEvent → List Char
  | StreamEvent.chunk t =>
    sseFrame ("\x7b\"chunk\": ".toList ++ jsonStr t ++ "\x7d".toList)
  | StreamEvent.done q a =>
    sseFrame ("\x7b\"done\": true, \"question\": ".toList ++ jsonStr q
      ++ ", \"answer\": ".toList ++ jsonStr a ++ "\x7d".toList)
  | StreamEvent.error m =>
    sseFrame ("\x7b\"error\": ".toList ++ jsonStr m ++ "\x7d".toList)

/-- The parameters of the one `client.chat.completions.create` call
`generate_dixer_stream` issues (dixer_service.py, lines 281-290). -/
structure ChatCall where
  model : List Char
  messages : List (List Char × List Char)
  temperature : ℚ
  max_tokens : Int
  stream : Bool
deriving DecidableEq

/-- Embedding of `generate_dixer_stream` (dixer_service.py, lines 228-316):
builds the prompt and token budget, issues the single streaming call (its
parameters are returned as the first component), and yields the SSE
frames.  The upstream behaviour is the `u` parameter. -/
def generate_dixer_stream (topic : List Char) (word_count : Int) (strategy : List Char)
    (member_name electorate : Option (List Char)) (u : Upstream) :
    ChatCall × List (List Char) :=
  let user_prompt := build_user_prompt topic word_count strategy member_name electorate
  let max_tokens := calculate_max_tokens word_count
  let call : ChatCall :=
    { model := "anthropic/claude-sonnet-4".toList
      messages := [("system".toList, DIXER_SYSTEM_PROMPT), ("user".toList, user_prompt)]
      temperature := (7 : ℚ) / 10
      max_tokens := max_tokens
      stream := true }
  (call, (generateEvents u).map renderEvent)

/-- The literal SSE frame routes.py lines 205-208 return for an empty
topic (an f-string with escaped braces: the payload uses single quotes). -/
def topicErrorFrame : List Char :=
  "data: \x7b\x27error\x27: \x27Please provide a topic or announcement.\x27\x7d\n\n".toList

/-- The literal SSE frame routes.py lines 210-214 return when no API key
is configured. -/
def keyErrorFrame : List Char :=
  "data: \x7b\x27error\x27: \x27OpenRouter API key not configured.\x27\x7d\n\n".toList

/-- Embedding of the streaming route `dixer_writer_stream`
(routes.py, lines 169-236): strip the inputs, check topic and API key
synchronously, and otherwise return the service generator's frames
(empty member fields are passed as `None`). -/
def dixer_writer_stream (rawTopic : List Char) (word_count : Int)
    (rawMemberName rawElectorate : List Char) (strategy : List Char)
    (apiKeyConfigured : Bool) (u : Upstream) : List (List Char) :=
  let topic := pyStrip rawTopic
  let member_name := pyStrip rawMemberName
  let electorate := pyStrip rawElectorate
  if topic.isEmpty then [topicErrorFrame]
  else if !apiKeyConfigured then [keyErrorFrame]
  else
    (generate_dixer_stream topic word_count strategy
      (if member_name.isEmpty then none else some member_name)
      (if electorate.isEmpty then none else some electorate) u).2

/-- Specification-side view of which fragments the loop forwards: the
texts of the fragments whose `delta.content` is truthy, in order. -/
def nonEmptyTexts (frags : List (Option (List Char))) : List (List Char) :=
  frags.filterMap (fun f => if pyTruthy f then some (f.getD []) else none)

/-- Terminal events (`done` or `error`). -/
def isTerminal : StreamEvent → Bool
  | StreamEvent.chunk _ => false
  | StreamEvent.done _ _ => true
  | StreamEvent.error _ => true

/-- Frame classifier: frames produced for chunk events (JSON object whose
first key is `"chunk"`). -/
def isChunkFrame (f : List Char) : Bool := isPrefixList "data: \x7b\"chunk\"".toList f

/-- Frame classifier: frames produced for error events, in either the
service's JSON form or the route's single-quoted form. -/
def isErrorFrame (f : List Char) : Bool :=
  isPrefixList "data: \x7b\x27error\x27".toList f || isPrefixList "data: \x7b\"error\"".toList f

example :
    parse_dixer_response "## QUESTION\nQ_TEXT\n## ANSWER\nA_TEXT".toList =
      ⟨"Q_TEXT".toList, "A_TEXT".toList, "## QUESTION\nQ_TEXT\n## ANSWER\nA_TEXT".toList⟩ := by
  decide

example : intStr 200 = "200".toList := by decide

example : calculate_max_tokens 200 = 900 := by decide

example :
    renderEvent (StreamEvent.chunk "hi\n".toList) = "data: \x7b\"chunk\": \"hi\\n\"\x7d\n\n".toList := by
  decide

example :
    (pySplit ":".toList "Option A: Good News (Positive)".toList).headD [] =
      "Option A".toList := by
  decide

example :
    parse_dixer_response "Just some plain text.".toList =
      ⟨[], "Just some plain text.".toList, "Just some plain text.".toList⟩ := by
  decide

example :
    parse_dixer_response "Question: what? Answer: that.".toList =
      ⟨"what?".toList, "that.".toList, "Question: what? Answer: that.".toList⟩ := by
  decide

/-! ### Lemmas about the embedded Python string primitives -/

theorem prefix_of_infix_helper {n s : List Char} (h : n <+: s) : n <:+: s := by
  obtain ⟨t, rfl⟩ := h
  exact ⟨[], t, rfl⟩

theorem infix_cons_split {n : List Char} {c : Char} {cs : List Char}
    (h : n <:+: c :: cs) : n <+: c :: cs ∨ n <:+: cs := by
  obtain ⟨pre, post, hh⟩ := h
  cases pre with
  | nil => exact Or.inl ⟨post, by simpa using hh⟩
  | cons p pre' =>
    right
    rw [List.cons_append, List.cons_append, List.cons.injEq] at hh
    exact ⟨pre', post, hh.2⟩

theorem isPrefixList_iff (p s : List Char) : isPrefixList p s = true ↔ p <+: s := by
  induction p generalizing s with
  | nil => simp [isPrefixList]
  | cons a ps ih =>
    cases s with
    | nil => simp [isPrefixList]
    | cons c cs =>
      simp only [isPrefixList, Bool.and_eq_true, beq_iff_eq, ih, List.cons_prefix_cons]

theorem pyFind_some_drop {n s : List Char} {i : Nat} (h : pyFind n s = some i) :
    n <+: s.drop i := by
  induction s generalizing i with
  | nil =>
    simp only [pyFind] at h
    split at h
    · next he =>
      obtain rfl : (0 : Nat) = i := Option.some.inj h
      simp_all [List.isEmpty_iff]
    · exact absurd h (by simp)
  | cons c cs ih =>
    by_cases hp : isPrefixList n (c :: cs) = true
    · simp only [pyFind, hp, if_true] at h
      obtain rfl : (0 : Nat) = i := Option.some.inj h
      simpa using (isPrefixList_iff n (c :: cs)).mp hp
    · simp only [pyFind, hp, if_false, Bool.false_eq_true, Option.map_eq_some'] at h
      obtain ⟨j, hj, rfl⟩ := h
      simpa using ih hj

theorem pyFind_some_le {n s : List Char} {i : Nat} (h : pyFind n s = some i) :
    i + n.length ≤ s.length := by
  induction s generalizing i with
  | nil =>
    simp only [pyFind] at h
    split at h
    · next he =>
      obtain rfl : (0 : Nat) = i := Option.some.inj h
      simp_all [List.isEmpty_iff]
    · exact absurd h (by simp)
  | cons c cs ih =>
    by_cases hp : isPrefixList n (c :: cs) = true
    · obtain rfl : (0 : Nat) = i := by
        simpa [pyFind, hp] using h
      have hle : n.length ≤ (c :: cs).length := by
        obtain ⟨t, ht⟩ := (isPrefixList_iff n (c :: cs)).mp hp
        simp [← ht]
      simpa using hle
    · simp only [pyFind, hp, if_false, Bool.false_eq_true, Option.map_eq_some'] at h
      obtain ⟨j, hj, rfl⟩ := h
      have := ih hj
      simp only [List.length_cons]
      omega

theorem pyContains_iff {s n : List Char} : pyContains s n = true ↔ n <:+: s := by
  unfold pyContains
  induction s with
  | nil =>
    by_cases he : n.isEmpty
    · simp_all [pyFind, List.isEmpty_iff]
    · simp only [pyFind, he, if_false, Option.isSome_none, Bool.false_eq_true, false_iff]
      intro hinf
      obtain ⟨pre, post, hh⟩ := hinf
      have hn : n = [] := (List.append_eq_nil.mp (List.append_eq_nil.mp hh).1).2
      simp_all [List.isEmpty_iff]
  | cons c cs ih =>
    by_cases hp : isPrefixList n (c :: cs) = true
    · simp only [pyFind, hp, if_true, Option.isSome_some, true_iff]
      exact prefix_of_infix_helper ((isPrefixList_iff n (c :: cs)).mp hp)
    · have hmap : (Option.map (fun x => x + 1) (pyFind n cs)).isSome = (pyFind n cs).isSome := by
        cases pyFind n cs <;> rfl
      simp only [pyFind, hp, if_false, Bool.false_eq_true, hmap, ih]
      constructor
      · intro hinf
        obtain ⟨pre, post, hh⟩ := hinf
        exact ⟨c :: pre, post, by simp [hh]⟩
      · intro hinf
        rcases infix_cons_split hinf with hpre | htail
        · exact absurd ((isPrefixList_iff n (c :: cs)).mpr hpre) hp
        · exact htail

theorem pySplitF_succ (fuel : Nat) (sep s : List Char) :
    pySplitF (fuel + 1) sep s =
      match pyFind sep s with
      | none => [s]
      | some i => s.take i :: pySplitF fuel sep (s.drop (i + sep.length)) := rfl

theorem pySplitF_some {sep s : List Char} {i : Nat} (fuel : Nat) (h : pyFind sep s = some i) :
    pySplitF (fuel + 1) sep s = s.take i :: pySplitF fuel sep (s.drop (i + sep.length)) := by
  rw [pySplitF_succ, h]

theorem pySplitF_none {sep s : List Char} (fuel : Nat) (h : pyFind sep s = none) :
    pySplitF (fuel + 1) sep s = [s] := by
  rw [pySplitF_succ, h]

theorem pySplitF_stable {sep : List Char} (hsep : sep ≠ []) :
    ∀ f1 s f2, s.length < f1 → s.length < f2 →
      pySplitF f1 sep s = pySplitF f2 sep s := by
  intro f1
  induction f1 using Nat.strong_induction_on with
  | _ f1 ihf =>
    intro s f2 h1 h2
    obtain ⟨k1, rfl⟩ : ∃ k, f1 = k + 1 := ⟨f1 - 1, by omega⟩
    obtain ⟨k2, rfl⟩ : ∃ k, f2 = k + 1 := ⟨f2 - 1, by omega⟩
    cases hfind : pyFind sep s with
    | none => rw [pySplitF_none k1 hfind, pySplitF_none k2 hfind]
    | some i =>
      rw [pySplitF_some k1 hfind, pySplitF_some k2 hfind]
      have hsl : 1 ≤ sep.length := List.length_pos.mpr hsep
      have hle := pyFind_some_le hfind
      have hlen : (s.drop (i + sep.length)).length < k1 ∧
          (s.drop (i + sep.length)).length < k2 := by
        rw [List.length_drop]
        omega
      rw [ihf k1 (by omega) _ k2 hlen.1 hlen.2]

theorem pySplit_eq_cons {sep s : List Char} {i : Nat} (hsep : sep ≠ [])
    (h : pyFind sep s = some i) :
    pySplit sep s = s.take i :: pySplit sep (s.drop (i + sep.length)) := by
  unfold pySplit
  rw [pySplitF_some s.length h]
  have hsl : 1 ≤ sep.length := List.length_pos.mpr hsep
  have hle := pyFind_some_le h
  have hlt : (s.drop (i + sep.length)).length < s.length := by
    rw [List.length_drop]; omega
  rw [pySplitF_stable hsep s.length _ ((s.drop (i + sep.length)).length + 1) hlt (by omega)]

theorem pySplit_eq_single {sep s : List Char} (h : pyFind sep s = none) :
    pySplit sep s = [s] := by
  unfold pySplit
  rw [pySplitF_none s.length h]

theorem nonEmptyTexts_cons (f : Option (List Char)) (rest : List (Option (List Char))) :
    nonEmptyTexts (f :: rest) =
      if pyTruthy f then f.getD [] :: nonEmptyTexts rest else nonEmptyTexts rest := by
  unfold nonEmptyTexts
  rw [List.filterMap_cons]
  by_cases hf : pyTruthy f = true <;> simp [hf]

theorem processFrags_spec (frags : List (Option (List Char))) (acc : List Char) :
    processFrags frags acc =
      ((nonEmptyTexts frags).map StreamEvent.chunk, acc ++ (nonEmptyTexts frags).flatten) := by
  induction frags generalizing acc with
  | nil => simp [processFrags, nonEmptyTexts]
  | cons f rest ih =>
    rw [nonEmptyTexts_cons]
    by_cases hf : pyTruthy f = true
    · simp only [processFrags, hf, if_true, ih, List.map_cons, List.flatten_cons,
        List.append_assoc]
    · simp only [processFrags, hf, if_false, Bool.false_eq_true, ih]

theorem generateEvents_stream_complete (frags : List (Option (List Char))) :
    generateEvents (Upstream.stream frags StreamEnd.complete) =
      (processFrags frags []).1 ++
        [StreamEvent.done (parse_dixer_response (processFrags frags []).2).question
          (parse_dixer_response (processFrags frags []).2).answer] := rfl

theorem generateEvents_stream_error (frags : List (Option (List Char))) (msg : List Char) :
    generateEvents (Upstream.stream frags (StreamEnd.errorAt msg)) =
      (processFrags frags []).1 ++ [StreamEvent.error msg] := rfl

/-- C9: `parse_dixer_response` is a total function of its input (it is a
plain Lean function, so it is deterministic and never fails), and the
`raw` field of its result always equals the untouched original input
text, in every branch. -/
theorem c9_parse_total_and_raw (text : List Char) : (parse_dixer_response text).raw = text := by
  unfold parse_dixer_response
  split
  · rfl
  · dsimp only
    split
    · split
      · rfl
      · rfl
    · rfl

/-- C8: `calculate_max_tokens` returns `min(word_count*2 + 500, 4000)`;
it is monotone non-decreasing in the word count, and constant `4000` once
`word_count*2 + 500` reaches the cap (i.e. for every word count of at
least 1750). -/
theorem c8_max_tokens (w : Int) :
    calculate_max_tokens w = min (w * 2 + 500) 4000 ∧
    (∀ w' : Int, w ≤ w' → calculate_max_tokens w ≤ calculate_max_tokens w') ∧
    (1750 ≤ w → calculate_max_tokens w = 4000) := by
  refine ⟨rfl, ?_, ?_⟩
  · intro w' hw
    unfold calculate_max_tokens
    exact min_le_min (by omega) le_rfl
  · intro hw
    unfold calculate_max_tokens
    exact min_eq_right (by omega)

theorem c8_max_tokens_witness :
    calculate_max_tokens 200 ≤ calculate_max_tokens 300 ∧ calculate_max_tokens 2000 = 4000 :=
  ⟨(c8_max_tokens 200).2.1 300 (by norm_num), (c8_max_tokens 2000).2.2 (by norm_num)⟩

/-- C3: on an upstream stream that completes naturally, every fragment
with truthy (non-missing, non-empty) text produces exactly one `chunk`
event carrying exactly that text, in arrival order; fragments with empty
or missing text produce nothing; the accumulation buffer is the
concatenation of the forwarded texts; and exactly one final `done` event
follows, carrying exactly the `question` and `answer` fields of
`parse_dixer_response` applied to that buffer (no `raw` field is part of
the event). -/
theorem c3_chunk_forwarding (frags : List (Option (List Char))) :
    generateEvents (Upstream.stream frags StreamEnd.complete) =
      (nonEmptyTexts frags).map StreamEvent.chunk ++
        [StreamEvent.done
          (parse_dixer_response (nonEmptyTexts frags).flatten).question
          (parse_dixer_response (nonEmptyTexts frags).flatten).answer] := by
  rw [generateEvents_stream_complete, processFrags_spec]
  simp

/-- C4: for every upstream behaviour (success, failure to open, or
mid-stream error), the produced event sequence is some chunk events
followed by exactly one terminal event (`done` or `error`), with nothing
after it; since `generateEvents` is a total function, no failure escapes
as an exception. -/
theorem c4_one_terminal_event (u : Upstream) :
    ∃ texts : List (List Char), ∃ t : StreamEvent,
      generateEvents u = texts.map StreamEvent.chunk ++ [t] ∧ isTerminal t = true := by
  cases u with
  | openFail msg => exact ⟨[], StreamEvent.error msg, rfl, rfl⟩
  | stream frags ending =>
    cases ending with
    | complete =>
      refine ⟨nonEmptyTexts frags,
        StreamEvent.done (parse_dixer_response (nonEmptyTexts frags).flatten).question
          (parse_dixer_response (nonEmptyTexts frags).flatten).answer, ?_, rfl⟩
      rw [generateEvents_stream_complete, processFrags_spec]
      simp
    | errorAt msg =>
      refine ⟨nonEmptyTexts frags, StreamEvent.error msg, ?_, rfl⟩
      rw [generateEvents_stream_error, processFrags_spec]

/-- C1 (amended): for every text containing both markers,
`parse_dixer_response` splits on EVERY occurrence of `'## ANSWER'`
(Python `str.split` has no count limit): the question is everything
before the first occurrence with every occurrence of `'## QUESTION'`
removed, trimmed; the answer is the segment strictly between the first
and second occurrences of `'## ANSWER'` (everything after the first when
it is the only one), trimmed; `raw` is the original text. -/
theorem c1_parse_headers_amended (text : List Char) (i : Nat)
    (hq : pyContains text mQ = true) (ha : pyFind mA text = some i) :
    parse_dixer_response text =
      ⟨pyStrip (pyReplace mQ [] (text.take i)),
       pyStrip (match pyFind mA (text.drop (i + mA.length)) with
         | none => text.drop (i + mA.length)
         | some j => (text.drop (i + mA.length)).take j),
       text⟩ := by
  have hca : pyContains text mA = true := by unfold pyContains; rw [ha]; rfl
  have hmA : mA ≠ [] := by decide
  unfold parse_dixer_response
  rw [if_pos (by rw [hq, hca]; decide)]
  dsimp only
  rw [pySplit_eq_cons hmA ha]
  cases hrest : pyFind mA (text.drop (i + mA.length)) with
  | none =>
    rw [pySplit_eq_single hrest]
    simp
  | some j =>
    rw [pySplit_eq_cons hmA hrest]
    simp

/-- C1 is false as stated: on a text where `'## ANSWER'` occurs twice,
the returned answer is the segment between the two occurrences (`"c"`),
not everything after the split point trimmed (`"c ## ANSWER d"`). -/
theorem c1_counterexample :
    (parse_dixer_response "## QUESTION a ## QUESTION b ## ANSWER c ## ANSWER d".toList).answer ≠
      pyStrip ("## QUESTION a ## QUESTION b ## ANSWER c ## ANSWER d".toList.drop
        ((pyFind mA "## QUESTION a ## QUESTION b ## ANSWER c ## ANSWER d".toList).getD 0
          + mA.length)) := by
  decide

theorem c1_parse_headers_witness :
    parse_dixer_response "## QUESTION\nQ_TEXT\n## ANSWER\nA_TEXT".toList =
      ⟨"Q_TEXT".toList, "A_TEXT".toList,
        "## QUESTION\nQ_TEXT\n## ANSWER\nA_TEXT".toList⟩ := by
  have h := c1_parse_headers_amended "## QUESTION\nQ_TEXT\n## ANSWER\nA_TEXT".toList 19
    (by decide) (by decide)
  rw [h]
  decide

/-- C2 (amended): for every text that does not contain both header
markers: if `question:` and `answer:` both occur (case-insensitively) and
the first `question:` comes strictly before the first `answer:`, the
question is the text between the end of the first `question:` and the
start of the first `answer:` and the answer is the text after the first
`answer:`, both trimmed; if both occur but `question:` does NOT come
first, both question and answer are empty (not the whole text); and when
they do not both occur, the question is empty and the whole text is the
answer verbatim. -/
theorem c2_fallback_amended (text : List Char)
    (hnot : ¬(pyContains text mQ = true ∧ pyContains text mA = true)) :
    ((pyContains (pyLower text) qMark = true ∧ pyContains (pyLower text) aMark = true) →
      ∀ qi ai, pyFind qMark (pyLower text) = some qi →
        pyFind aMark (pyLower text) = some ai →
        (qi < ai → parse_dixer_response text =
          ⟨pyStrip ((text.drop (qi + 9)).take (ai - (qi + 9))),
           pyStrip (text.drop (ai + 7)), text⟩) ∧
        (¬ qi < ai → parse_dixer_response text = ⟨[], [], text⟩)) ∧
    (¬(pyContains (pyLower text) qMark = true ∧ pyContains (pyLower text) aMark = true) →
      parse_dixer_response text = ⟨[], text, text⟩) := by
  have hcond : ¬((pyContains text mQ && pyContains text mA) = true) := by
    cases h1 : pyContains text mQ <;> cases h2 : pyContains text mA <;> simp_all
  constructor
  · rintro ⟨hq, ha⟩ qi ai hfq hfa
    have hparse : parse_dixer_response text =
        (if (pyFind qMark (pyLower text)).getD 0 < (pyFind aMark (pyLower text)).getD 0 then
          ⟨pyStrip ((text.drop ((pyFind qMark (pyLower text)).getD 0 + 9)).take
              ((pyFind aMark (pyLower text)).getD 0 - ((pyFind qMark (pyLower text)).getD 0 + 9))),
            pyStrip (text.drop ((pyFind aMark (pyLower text)).getD 0 + 7)), text⟩
          else ⟨[], [], text⟩) := by
      unfold parse_dixer_response
      rw [if_neg hcond]
      dsimp only
      rw [if_pos (by rw [hq, ha]; decide)]
    rw [hparse, hfq, hfa]
    simp only [Option.getD_some]
    constructor
    · intro hlt
      rw [if_pos hlt]
    · intro hlt
      rw [if_neg hlt]
  · intro hnot2
    have hcond2 : ¬((pyContains (pyLower text) qMark && pyContains (pyLower text) aMark) = true) := by
      cases h1 : pyContains (pyLower text) qMark <;>
        cases h2 : pyContains (pyLower text) aMark <;> simp_all
    unfold parse_dixer_response
    rw [if_neg hcond]
    dsimp only
    rw [if_neg hcond2]

/-- C2 is false as stated: on a text containing both `answer:` and
`question:` with `answer:` first, the code returns an empty answer, not
the entire input text. -/
theorem c2_counterexample :
    (parse_dixer_response "answer: foo question: bar".toList).answer ≠
      "answer: foo question: bar".toList := by
  decide

theorem c2_fallback_witness :
    parse_dixer_response "Question: what? Answer: that.".toList =
      ⟨"what?".toList, "that.".toList, "Question: what? Answer: that.".toList⟩ := by
  have h := ((c2_fallback_amended "Question: what? Answer: that.".toList (by decide)).1
    ⟨by decide, by decide⟩ 0 16 (by decide) (by decide)).1 (by decide)
  rw [h]
  decide

theorem infix_refl_self (l : List Char) : l <:+: l := ⟨[], [], by simp⟩

theorem infix_appendL (s : List Char) {l t : List Char} (h : l <:+: t) : l <:+: s ++ t := by
  obtain ⟨pre, post, hh⟩ := h
  exact ⟨s ++ pre, post, by rw [← hh]; simp [List.append_assoc]⟩

theorem infix_appendR (t : List Char) {l s : List Char} (h : l <:+: s) : l <:+: s ++ t := by
  obtain ⟨pre, post, hh⟩ := h
  exact ⟨pre, post ++ t, by rw [← hh]; simp [List.append_assoc]⟩

set_option maxRecDepth 8000 in
/-- C10: when both member name and electorate are truthy, the built user
prompt contains both literal values; when either is missing or empty, the
prompt contains the literal `[ELECTORATE]` placeholder instruction and is
identical to the prompt built with no member information at all (so it
contains no partial/mismatched pairing of the supplied values). -/
theorem c10_personalization (topic : List Char) (wc : Int) (strategy : List Char)
    (mn el : Option (List Char)) :
    (pyTruthy mn = true → pyTruthy el = true →
      pyContains (build_user_prompt topic wc strategy mn el) (mn.getD []) = true ∧
      pyContains (build_user_prompt topic wc strategy mn el) (el.getD []) = true) ∧
    (¬(pyTruthy mn = true ∧ pyTruthy el = true) →
      pyContains (build_user_prompt topic wc strategy mn el) "[ELECTORATE]".toList = true ∧
      build_user_prompt topic wc strategy mn el =
        build_user_prompt topic wc strategy none none) := by
  constructor
  · intro hmn hel
    unfold build_user_prompt
    dsimp only
    rw [if_pos (by rw [hmn, hel]; decide)]
    constructor
    · rw [pyContains_iff]
      exact infix_appendR _ (infix_appendR _ (infix_appendR _ (infix_appendR _
        (infix_appendR _ (infix_appendR _ (infix_appendR _ (infix_appendR _
          (infix_appendR _ (infix_appendL _ (infix_appendR _ (infix_appendR _
            (infix_appendR _ (infix_appendL _ (infix_refl_self _))))))))))))))
    · rw [pyContains_iff]
      exact infix_appendR _ (infix_appendR _ (infix_appendR _ (infix_appendR _
        (infix_appendR _ (infix_appendR _ (infix_appendR _ (infix_appendR _
          (infix_appendR _ (infix_appendL _ (infix_appendR _
            (infix_appendL _ (infix_refl_self _))))))))))))
  · intro hne
    have hb : (pyTruthy mn && pyTruthy el) = false := by
      cases h1 : pyTruthy mn <;> cases h2 : pyTruthy el <;> simp_all
    constructor
    · unfold build_user_prompt
      dsimp only
      simp only [hb, Bool.false_eq_true, if_false]
      rw [pyContains_iff]
      have hblock : pyContains
          ("**Member Asking:** Not specified\n\n**Member\x27s Electorate:** Not specified\n\n"
            ++ "Since the member is not specified, use placeholder text in the answer opening: \"I want to thank the member for [ELECTORATE] for their question.\" Keep the brackets as a placeholder to be filled in later.").toList
          "[ELECTORATE]".toList = true := by decide
      exact infix_appendR _ (infix_appendR _ (infix_appendR _ (infix_appendR _
        (infix_appendR _ (infix_appendR _ (infix_appendR _ (infix_appendR _
          (infix_appendR _ (infix_appendL _ (pyContains_iff.mp hblock))))))))))
    · unfold build_user_prompt
      dsimp only
      simp only [hb, Bool.false_eq_true, if_false]
      rfl

theorem c10_personalization_witness :
    pyContains (build_user_prompt "tax cuts".toList 200 "option_a".toList
        (some "Jane Smith".toList) (some "Riverside".toList)) "Jane Smith".toList = true ∧
    pyContains (build_user_prompt "tax cuts".toList 200 "option_a".toList
        (some "Jane Smith".toList) (some "Riverside".toList)) "Riverside".toList = true ∧
    pyContains (build_user_prompt "tax cuts".toList 200 "option_a".toList
        (some "Jane Smith".toList) none) "[ELECTORATE]".toList = true := by
  refine ⟨?_, ?_, ?_⟩
  · exact ((c10_personalization "tax cuts".toList 200 "option_a".toList
      (some "Jane Smith".toList) (some "Riverside".toList)).1 (by decide) (by decide)).1
  · exact ((c10_personalization "tax cuts".toList 200 "option_a".toList
      (some "Jane Smith".toList) (some "Riverside".toList)).1 (by decide) (by decide)).2
  · exact ((c10_personalization "tax cuts".toList 200 "option_a".toList
      (some "Jane Smith".toList) none).2 (by decide)).1

/-- C6 (amended): every request produces exactly one upstream streaming
chat-completion call whose parameters are the two-message prompt (the
fixed system instruction and the user instruction built from the
request), temperature 0.7, the computed token budget
`min(word_count*2 + 500, 4000)`, and streaming enabled — and whose model
is always the fixed literal `"anthropic/claude-sonnet-4"`: the streaming
request carries no model field, so the model cannot vary with the
request. -/
theorem c6_upstream_call_params (topic : List Char) (wc : Int) (strategy : List Char)
    (mn el : Option (List Char)) (u : Upstream) :
    (generate_dixer_stream topic wc strategy mn el u).1 =
      { model := "anthropic/claude-sonnet-4".toList
        messages := [("system".toList, DIXER_SYSTEM_PROMPT),
          ("user".toList, build_user_prompt topic wc strategy mn el)]
        temperature := (7 : ℚ) / 10
        max_tokens := min (wc * 2 + 500) 4000
        stream := true } := rfl

/-- C6 is false as stated: the request has no model identifier field
reaching the upstream call — two requests differing in every available
request field yield upstream calls with the same model, the hardcoded
literal `"anthropic/claude-sonnet-4"`. -/
theorem c6_counterexample :
    (generate_dixer_stream "tax cuts".toList 200 "option_a".toList
        (some "Jane Smith".toList) (some "Riverside".toList)
        (Upstream.stream [] StreamEnd.complete)).1.model =
      "anthropic/claude-sonnet-4".toList ∧
    (generate_dixer_stream "health".toList 300 "option_b".toList none none
        (Upstream.openFail [])).1.model = "anthropic/claude-sonnet-4".toList :=
  ⟨rfl, rfl⟩

/-- C5: whenever the topic is empty after trimming or no API key is
configured, the route's stream is a single error frame: length one,
exactly one error frame, zero chunk frames — and it does not depend on
the upstream behaviour at all (the check happens synchronously, before
any upstream connection). -/
theorem c5_validation (rawTopic : List Char) (wc : Int) (rm re strat : List Char)
    (ak : Bool) (u u' : Upstream)
    (h : pyStrip rawTopic = [] ∨ ak = false) :
    (dixer_writer_stream rawTopic wc rm re strat ak u).length = 1 ∧
    (dixer_writer_stream rawTopic wc rm re strat ak u).countP isErrorFrame = 1 ∧
    (dixer_writer_stream rawTopic wc rm re strat ak u).countP isChunkFrame = 0 ∧
    dixer_writer_stream rawTopic wc rm re strat ak u =
      dixer_writer_stream rawTopic wc rm re strat ak u' := by
  by_cases ht : (pyStrip rawTopic).isEmpty = true
  · unfold dixer_writer_stream
    dsimp only
    rw [if_pos ht, if_pos ht]
    refine ⟨rfl, ?_, ?_, rfl⟩ <;> decide
  · rcases h with h | h
    · exact absurd (List.isEmpty_iff.mpr h) ht
    · unfold dixer_writer_stream
      dsimp only
      rw [if_neg ht, if_neg ht]
      subst h
      rw [if_pos (by decide), if_pos (by decide)]
      refine ⟨rfl, ?_, ?_, rfl⟩ <;> decide

theorem c5_validation_witness :
    (dixer_writer_stream "   ".toList 200 [] [] "option_a".toList true
      (Upstream.stream [some "hi".toList] StreamEnd.complete)).length = 1 ∧
    (dixer_writer_stream "   ".toList 200 [] [] "option_a".toList true
      (Upstream.stream [some "hi".toList] StreamEnd.complete)).countP isErrorFrame = 1 ∧
    (dixer_writer_stream "   ".toList 200 [] [] "option_a".toList true
      (Upstream.stream [some "hi".toList] StreamEnd.complete)).countP isChunkFrame = 0 ∧
    dixer_writer_stream "   ".toList 200 [] [] "option_a".toList true
        (Upstream.stream [some "hi".toList] StreamEnd.complete) =
      dixer_writer_stream "   ".toList 200 [] [] "option_a".toList true
        (Upstream.openFail "boom".toList) :=
  c5_validation "   ".toList 200 [] [] "option_a".toList true
    (Upstream.stream [some "hi".toList] StreamEnd.complete)
    (Upstream.openFail "boom".toList) (Or.inl (by decide))

/-- C7 names a code bug: the synchronous validation error event the route
emits is NOT `data: ` + a valid JSON object + two newlines; its payload
is a Python-literal-style object with single quotes, while the service's
rendering of the same error message (via `json.dumps`) uses double-quoted
JSON. At the failing input (topic empty after trimming) the route's
output frame differs from the JSON rendering required by the claim. -/
theorem c7_route_error_frame_not_json (u : Upstream) :
    dixer_writer_stream "   ".toList 200 [] [] "option_a".toList true u =
      [topicErrorFrame] ∧
    topicErrorFrame ≠
      renderEvent (StreamEvent.error "Please provide a topic or announcement.".toList) := by
  refine ⟨?_, by decide⟩
  unfold dixer_writer_stream
  dsimp only
  rw [if_pos (by decide)]
